import Mathlib

/-!
Shallow embedding of the polymarketagent research pipeline (`main2.py`).

The repository wires a LangGraph pipeline: persona generation, a fan-out of
interview sub-graphs (one per analyst), recommendation synthesis, balance
check and trade execution.  All external collaborators (the chat model, the
two retrieval providers, the exchange) are opaque: they are modelled as
oracle functions passed explicitly to each node.  Machine state, node
patches, the channel merge policy (append for `messages` / `context` /
`sections`, replace otherwise) and the routing logic are translated from
`main2.py` directly.

The record types `Market`, `Analyst`, `InterviewState`, the pipeline state
and `Recommendation` live in the file `models.py` of the repository, absent from
the sources; their field layout is modelled from the spec (section 3) and
from how `main2.py` reads them.
-/

/-- The Python test `pat in s` on explicit character lists:
does `l` start with `pat`? -/
def charsStartWith : List Char → List Char → Bool
  | [], _ => true
  | _ :: _, [] => false
  | p :: ps, c :: cs => p == c && charsStartWith ps cs

/-- Does `pat` occur as a contiguous run inside `l`? -/
def charsContain (pat : List Char) : List Char → Bool
  | [] => charsStartWith pat []
  | c :: cs => charsStartWith pat (c :: cs) || charsContain pat cs

/-- The Python test `pat in s` on strings (used by `route_messages` for the
termination phrase). -/
def strContains (s pat : String) : Bool :=
  charsContain pat.toList s.toList

/-- A chat message.  `isAI` distinguishes `AIMessage` (model output) from
`HumanMessage`; `name` is the optional tag set on a message (the code tags
expert answers with `name = "expert"`). -/
structure Message where
  isAI : Bool
  name : Option String
  content : String
deriving Repr, DecidableEq

/-- Constructor `HumanMessage(content=...)`. -/
def HumanMessage (content : String) : Message :=
  { isAI := false, name := none, content := content }

/-- An `AIMessage` as returned by the chat model: no name tag. -/
def AIMessage (content : String) : Message :=
  { isAI := true, name := none, content := content }

/-- Modelled from the spec: analyst persona record from the missing
`models.py` (name, role/description, focus goals); `main2.py` reads
`analyst.persona` and `analyst.description`. -/
structure Analyst where
  name : String
  description : String
  persona : String
deriving Repr, DecidableEq

/-- Modelled from the spec: market fact record from the missing `models.py`
(section 3): question, description, ordered outcome labels, outcome prices
aligned by index, end date, volume.  `main2.py` reads exactly these
fields. -/
structure Market where
  question : String
  description : String
  outcomes : List String
  outcome_prices : List Rat
  end_date : String
  volume : String
deriving Repr, DecidableEq

/-- Modelled from the spec: a produced recommendation — an outcome choice,
a conviction score and rationale text (section 3).  Its contents are
produced by the structured-output collaborator and are opaque here. -/
structure Recommendation where
  outcome : String
  conviction : Rat
  rationale : String
deriving Repr, DecidableEq

/-- Modelled from the spec: the per-branch interview state (section 3).
`max_num_turns` is optional because `route_messages` reads it with
`state.get("max_num_turns", 2)`.  `sections` is the output channel through
which `write_section` contributes to the parent state. -/
structure InterviewState where
  analyst : Analyst
  messages : List Message
  context : List String
  interview : String
  max_num_turns : Option Nat
  sections : List String
deriving Repr, DecidableEq

/-- A partial state patch on `InterviewState` (the Python dict a
node returns).  `none` means the key is absent from the dict. -/
structure InterviewPatch where
  analyst : Option Analyst
  messages : Option (List Message)
  context : Option (List String)
  interview : Option String
  max_num_turns : Option Nat
  sections : Option (List String)
deriving Repr, DecidableEq

/-- The empty patch (a node returning `{}`). -/
def InterviewPatch.empty : InterviewPatch :=
  { analyst := none, messages := none, context := none, interview := none,
    max_num_turns := none, sections := none }

/-- The engine merge policy for `InterviewState` channels: `messages`,
`context` and `sections` are append channels, every other field is
last-write-wins replace (spec section 4.1). -/
def applyPatch (s : InterviewState) (p : InterviewPatch) : InterviewState :=
  { analyst := p.analyst.getD s.analyst
    messages := s.messages ++ p.messages.getD []
    context := s.context ++ p.context.getD []
    interview := p.interview.getD s.interview
    max_num_turns := match p.max_num_turns with
      | some v => some v
      | none => s.max_num_turns
    sections := s.sections ++ p.sections.getD [] }

/-- Embeds `format_market_odds` from `main2.py`: despite its docstring ("format
market odds into a readable string") it returns the dict
`{outcome: price for outcome, price in zip(outcomes, outcome_prices)}`,
modelled as the association list produced by `zip`. -/
def format_market_odds (market : Market) : List (String × Rat) :=
  market.outcomes.zip market.outcome_prices

/-- The Python access `messages[-2]`: the second-to-last element when at least two
elements exist, otherwise an `IndexError`, modelled as `none`. -/
def pyIndexNeg2 {α : Type} (l : List α) : Option α :=
  if 2 ≤ l.length then l[l.length - 2]? else none

/-- The count `len([m for m in messages if isinstance(m, AIMessage) and
m.name == name])` from `route_messages`. -/
def num_responses (messages : List Message) (name : String) : Nat :=
  (messages.filter fun m => m.isAI && m.name == some name).length

/-- Embeds `route_messages` from `main2.py`.  The Python `name` parameter defaults
to `"expert"`; the graph always invokes it with that default.  The
unguarded `messages[-2]` access is modelled by `pyIndexNeg2`; the `none`
result is the `IndexError` raised when fewer than two messages exist. -/
def route_messages (state : InterviewState) (name : String) : Option String :=
  let messages := state.messages
  let max_num_turns := state.max_num_turns.getD 2
  if max_num_turns ≤ num_responses messages name then
    some "save_interview"
  else
    match pyIndexNeg2 messages with
    | none => none
    | some last_question =>
      if strContains last_question.content "Thank you so much for your help" then
        some "save_interview"
      else
        some "ask_question"

/-- Rendering of the odds dict when it is interpolated into a prompt string
(abstracts the Python rendering `str(dict)`; no claim depends on the text). -/
def oddsDictStr (odds : List (String × Rat)) : String :=
  String.intercalate ", " (odds.map fun p => p.1 ++ ": " ++ toString p.2)

/-- Rendering of the `context` list when it is interpolated into a prompt
string (abstracts the Python rendering `str(list)`). -/
def contextStr (context : List String) : String :=
  String.intercalate "\n" context

/-- Embeds `analyst_instructions.format(...)` from `main2.py`; the guidance prose
is abbreviated (prompt wording is out of scope, spec section 1), the
interpolated fields are the ones the source interpolates. -/
def analyst_instructions (market : Market) (market_odds : String)
    (max_analysts : Nat) : String :=
  "You are tasked with creating a set of AI analyst personas. " ++
    "First, review the prediction market details:\n\nMarket Question: " ++
    market.question ++ "\nDescription: " ++ market.description ++
    "\nCurrent Odds: " ++ market_odds ++ "\nEnd Date: " ++ market.end_date ++
    "\nVolume: " ++ market.volume ++ "\n\nPick the top " ++
    toString max_analysts ++
    " themes. Assign one analyst to each theme."

/-- Embeds `question_instructions.format(goals=...)` from `main2.py`
(abbreviated prose, same interpolation). -/
def question_instructions (goals : String) : String :=
  "You are an analyst tasked with interviewing an expert to learn about " ++
    "a specific topic.\n\nHere is your topic of focus and set of goals: " ++
    goals ++
    "\n\nWhen you are satisfied with your understanding, complete the " ++
    "interview with: \"Thank you so much for your help!\""

/-- Embeds `answer_instructions.format(goals=..., context=...)` from `main2.py`
(abbreviated prose, same interpolation). -/
def answer_instructions (goals : String) (context : String) : String :=
  "You are an expert being interviewed by an analyst.\n\nHere is analyst " ++
    "area of focus: " ++ goals ++
    ".\n\nTo answer question, use this context:\n\n" ++ context ++
    "\n\nUse only the information provided in the context."

/-- Embeds `section_writer_instructions.format(focus=...)` from `main2.py`
(abbreviated prose, same interpolation). -/
def section_writer_instructions (focus : String) : String :=
  "You are an expert technical writer. Your task is to create a short, " ++
    "easily digestible section of a report based on a set of source " ++
    "documents.\n\nMake your title engaging based upon the focus area " ++
    "of the analyst: " ++ focus

/-- Embeds `recommendation_instructions.format(...)` from `main2.py`
(abbreviated prose, same interpolation: market fields, the odds dict and
the concatenated memos). -/
def recommendation_instructions (market : Market) (market_odds : String)
    (context : String) : String :=
  "You are an expert market analyst creating a comprehensive report on " ++
    "this prediction market:\n\nMarket Question: " ++ market.question ++
    "\nDescription: " ++ market.description ++ "\nCurrent Odds: " ++
    market_odds ++ "\nEnd Date: " ++ market.end_date ++ "\nVolume: " ++
    market.volume ++
    "\n\nHere are the memos from your analysts to build your report from:\n" ++
    context ++ "\n"

/-- The opaque external collaborators (chat model calls and the two
retrieval pipelines), one oracle per call site in `main2.py`.  `question`
and `answer` receive the system message and the message history; the two
search oracles collapse query generation, retrieval and document
formatting (all external) into one function of the message history;
`sectionText` and `recommend` receive the system and human message of the
structured call. -/
structure LLMOracles where
  question : String → List Message → String
  answer : String → List Message → String
  searchWeb : List Message → String
  searchWiki : List Message → String
  sectionText : String → String → String
  analystGen : String → List Analyst
  recommend : String → String → Recommendation

/-- Embeds `generate_question` from `main2.py`: one `AIMessage` appended, built
from the persona prompt and the history. -/
def generate_question (askLLM : String → List Message → String)
    (state : InterviewState) : InterviewPatch :=
  let analyst := state.analyst
  let messages := state.messages
  let system_message := question_instructions analyst.persona
  let question := AIMessage (askLLM system_message messages)
  { InterviewPatch.empty with messages := some [question] }

/-- Embeds `search_web` from `main2.py`: the query derivation, the Tavily call and
the document formatting are external; the node appends the one formatted
blob to `context`. -/
def search_web (searchLLM : List Message → String)
    (state : InterviewState) : InterviewPatch :=
  let formatted_search_docs := searchLLM state.messages
  { InterviewPatch.empty with context := some [formatted_search_docs] }

/-- Embeds `search_wikipedia` from `main2.py`: same shape as `search_web` with the
Wikipedia retrieval collaborator. -/
def search_wikipedia (searchLLM : List Message → String)
    (state : InterviewState) : InterviewPatch :=
  let formatted_search_docs := searchLLM state.messages
  { InterviewPatch.empty with context := some [formatted_search_docs] }

/-- Embeds `generate_answer` from `main2.py`: the model reply has `answer.name`
set to `"expert"` before the patch `{"messages": [answer]}` is returned. -/
def generate_answer (ansLLM : String → List Message → String)
    (state : InterviewState) : InterviewPatch :=
  let analyst := state.analyst
  let messages := state.messages
  let context := state.context
  let system_message := answer_instructions analyst.persona (contextStr context)
  let answer : Message :=
    { AIMessage (ansLLM system_message messages) with name := some "expert" }
  { InterviewPatch.empty with messages := some [answer] }

/-- The langchain helper `get_buffer_string`: the serialized transcript. -/
def get_buffer_string (messages : List Message) : String :=
  String.intercalate "\n"
    (messages.map fun m => (if m.isAI then "AI" else "Human") ++ ": " ++ m.content)

/-- Embeds `save_interview` from `main2.py`. -/
def save_interview (state : InterviewState) : InterviewPatch :=
  { InterviewPatch.empty with interview := some (get_buffer_string state.messages) }

/-- Embeds `write_section` from `main2.py`: the prompt uses the analyst focus and
the gathered `context`; the patch contributes exactly the one-element list
`{"sections": [section.content]}`. -/
def write_section (sectLLM : String → String → String)
    (state : InterviewState) : InterviewPatch :=
  let context := state.context
  let analyst := state.analyst
  let system_message := section_writer_instructions analyst.description
  let sectionContent := sectLLM system_message
    ("Use this source to write your section: " ++ contextStr context)
  { InterviewPatch.empty with sections := some [sectionContent] }

/-- Modelled from the spec: `GenerateAnalystsState`, with the fields
`main2.py` reads (market, requested analyst count, analysts). -/
structure GenerateAnalystsState where
  market : Market
  max_analysts : Nat
  analysts : List Analyst
deriving Repr, DecidableEq

/-- Modelled from the spec: the top-level pipeline state (section 3). -/
structure ResearchGraphState where
  market : Market
  max_analysts : Nat
  analysts : List Analyst
  sections : List String
  recommendation : Option Recommendation
deriving Repr, DecidableEq

/-- A partial patch of a node on the top-level state. -/
structure ResearchPatch where
  analysts : Option (List Analyst)
  sections : Option (List String)
  recommendation : Option Recommendation
deriving Repr, DecidableEq

/-- The empty top-level patch. -/
def ResearchPatch.empty : ResearchPatch :=
  { analysts := none, sections := none, recommendation := none }

/-- Embeds `create_analysts` from `main2.py`: formats the market (odds included)
into the persona prompt and stores the analyst list of the structured output. -/
def create_analysts (perspLLM : String → List Analyst)
    (state : GenerateAnalystsState) : ResearchPatch :=
  let market := state.market
  let max_analysts := state.max_analysts
  let market_odds := format_market_odds market
  let system_message :=
    analyst_instructions market (oddsDictStr market_odds) max_analysts
  { ResearchPatch.empty with analysts := some (perspLLM system_message) }

/-- One `Send("conduct_interview", {...})` directive produced by the
fan-out router. -/
structure SendDirective where
  node : String
  analyst : Analyst
  messages : List Message
deriving Repr, DecidableEq

/-- Embeds `initiate_all_interviews` from `main2.py`: one directive per analyst,
in list order, each seeded with that analyst and the single opening
`HumanMessage` addressed to the market question. -/
def initiate_all_interviews (state : ResearchGraphState) : List SendDirective :=
  let market := state.market
  state.analysts.map fun analyst =>
    { node := "conduct_interview"
      analyst := analyst
      messages := [HumanMessage
        ("So you said you were analyzing the market question: " ++
          market.question ++ "?")] }

/-- Embeds `write_recommendation` from `main2.py`: joins the merged sections with
blank lines, interpolates them with the market fields and the odds dict
into the synthesis prompt, and stores the one structured
`Recommendation`. -/
def write_recommendation (recLLM : String → String → Recommendation)
    (state : ResearchGraphState) : ResearchPatch :=
  let sections := state.sections
  let market := state.market
  let market_odds := format_market_odds market
  let formatted_str_sections := String.intercalate "\n\n" sections
  let system_message :=
    recommendation_instructions market (oddsDictStr market_odds)
      formatted_str_sections
  { ResearchPatch.empty with
      recommendation :=
        some (recLLM system_message
          "Create a recommendation based upon these memos.") }

/-- The number of expert answers recorded in a state (what
`route_messages` counts). -/
def expertCount (s : InterviewState) : Nat :=
  num_responses s.messages "expert"

/-- One ask → (web search ∥ wiki search) → answer cycle of the interview
sub-graph.  Both search nodes read the snapshot after `ask_question`
(LangGraph runs them in one superstep); their `context` contributions are
merged by the append policy. -/
def interviewCycle (O : LLMOracles) (s : InterviewState) : InterviewState :=
  let s1 := applyPatch s (generate_question O.question s)
  let s2 := applyPatch s1 (search_web O.searchWeb s1)
  let s3 := applyPatch s2 (search_wikipedia O.searchWiki s1)
  applyPatch s3 (generate_answer O.answer s3)

/-- Execution of the interview loop from `ask_question`: run one cycle,
then consult `route_messages` (the graph wires the router only after
`answer_question`).  Returns the state at `save_interview` and the number
of cycles run; `none` models either fuel exhaustion or the router raising
`IndexError`. -/
def runFrom (O : LLMOracles) : Nat → InterviewState → Option (InterviewState × Nat)
  | 0, _ => none
  | fuel + 1, s =>
    let s1 := interviewCycle O s
    match route_messages s1 "expert" with
    | none => none
    | some target =>
      if target = "save_interview" then some (s1, 1)
      else
        match runFrom O fuel s1 with
        | none => none
        | some (t, n) => some (t, n + 1)

/-- A full interview branch: the loop, then `save_interview` and
`write_section`. -/
def conduct_interview (O : LLMOracles) (fuel : Nat)
    (s0 : InterviewState) : Option InterviewState :=
  match runFrom O fuel s0 with
  | none => none
  | some (s, _) =>
    let s1 := applyPatch s (save_interview s)
    some (applyPatch s1 (write_section O.sectionText s1))

/-- The isolated `InterviewState` a branch starts from: exactly the keys of
the dict of the directive; the remaining channels start at their defaults. -/
def seedState (d : SendDirective) : InterviewState :=
  { analyst := d.analyst, messages := d.messages, context := [],
    interview := "", max_num_turns := none, sections := [] }

/-- The fan-out / join: run the branch of every directive in isolation and,
when all succeed, fold the `sections` contribution of each branch into the parent
state through the append merge policy. -/
def runBranches (O : LLMOracles) (fuel : Nat)
    (st : ResearchGraphState) : Option ResearchGraphState :=
  let results := (initiate_all_interviews st).map
    fun d => conduct_interview O fuel (seedState d)
  if results.all Option.isSome then
    some { st with
      sections := st.sections ++ ((results.filterMap id).map
        fun r => r.sections).flatten }
  else
    none

def cycleQuestionMsg (O : LLMOracles) (s : InterviewState) : Message :=
  AIMessage (O.question (question_instructions s.analyst.persona) s.messages)

def cycleAnswerMsg (O : LLMOracles) (s : InterviewState) : Message :=
  let s1 := applyPatch s (generate_question O.question s)
  let s2 := applyPatch s1 (search_web O.searchWeb s1)
  let s3 := applyPatch s2 (search_wikipedia O.searchWiki s1)
  { AIMessage (O.answer (answer_instructions s3.analyst.persona (contextStr s3.context))
      s3.messages) with name := some "expert" }

def demoMarket : Market :=
  { question := "Will X happen?", description := "A demo market.",
    outcomes := ["Yes", "No"], outcome_prices := [62/100, 38/100],
    end_date := "2025-12-31", volume := "12345" }

def mismatchedMarket : Market :=
  { question := "Will X happen?", description := "A malformed market.",
    outcomes := ["Yes", "No"], outcome_prices := [62/100],
    end_date := "2025-12-31", volume := "12345" }

def annAnalyst : Analyst :=
  { name := "Ann", description := "supply factors",
    persona := "You analyze supply factors." }

def demoOracles (questionText : String) : LLMOracles :=
  { question := fun _ _ => questionText
    answer := fun _ _ => "Here is my answer."
    searchWeb := fun _ => "web document"
    searchWiki := fun _ => "wiki document"
    sectionText := fun _ h => "## Section\n" ++ h
    analystGen := fun _ => [annAnalyst]
    recommend := fun _ _ =>
      { outcome := "Yes", conviction := 6/10, rationale := "Edge over odds." } }

def demoSeed (mt : Option Nat) : InterviewState :=
  { analyst := annAnalyst
    messages := [HumanMessage
      "So you said you were analyzing the market question: Will X happen??"]
    context := [], interview := "", max_num_turns := mt, sections := [] }

def emptySeed : InterviewState :=
  { analyst := annAnalyst, messages := [], context := [], interview := "",
    max_num_turns := none, sections := [] }

def demoResearch : ResearchGraphState :=
  { market := demoMarket, max_analysts := 1, analysts := [annAnalyst],
    sections := [], recommendation := none }

def detStateA : InterviewState :=
  { demoSeed (some 3) with context := ["context A"] }

def detStateB : InterviewState :=
  { demoSeed (some 3) with context := ["context B"], interview := "other" }

def answerMsgOf (ansLLM : String → List Message → String)
    (s : InterviewState) : Message :=
  { AIMessage (ansLLM (answer_instructions s.analyst.persona (contextStr s.context))
      s.messages) with name := some "expert" }

lemma zip_getElem? {α β : Type} (l₁ : List α) (l₂ : List β) (i : Nat) :
    (l₁.zip l₂)[i]? = l₁[i]?.bind fun a => (l₂[i]?).map fun b => (a, b) := by
  induction l₁ generalizing l₂ i with
  | nil => simp
  | cons a l ih =>
    cases l₂ with
    | nil => simp
    | cons b l' =>
      cases i with
      | zero => simp
      | succ j => simpa using ih l' j

lemma pyIndexNeg2_append_two {α : Type} (l : List α) (x y : α) :
    pyIndexNeg2 (l ++ [x, y]) = some x := by
  have h1 : (l ++ [x, y]).length = l.length + 2 := by simp
  have h2 : (l ++ [x, y])[l.length]? = some x := by
    rw [List.getElem?_append_right (Nat.le_refl _)]
    simp
  simp [pyIndexNeg2, h1, h2]

lemma num_responses_append (l₁ l₂ : List Message) (name : String) :
    num_responses (l₁ ++ l₂) name = num_responses l₁ name + num_responses l₂ name := by
  simp [num_responses, List.filter_append]

lemma interviewCycle_analyst (O : LLMOracles) (s : InterviewState) :
    (interviewCycle O s).analyst = s.analyst := by
  simp [interviewCycle, applyPatch, generate_question, search_web, search_wikipedia,
    generate_answer, InterviewPatch.empty]

lemma interviewCycle_max (O : LLMOracles) (s : InterviewState) :
    (interviewCycle O s).max_num_turns = s.max_num_turns := by
  simp [interviewCycle, applyPatch, generate_question, search_web, search_wikipedia,
    generate_answer, InterviewPatch.empty]

lemma interviewCycle_messages (O : LLMOracles) (s : InterviewState) :
    (interviewCycle O s).messages =
      s.messages ++ [cycleQuestionMsg O s, cycleAnswerMsg O s] := by
  simp [interviewCycle, applyPatch, generate_question, search_web, search_wikipedia,
    generate_answer, InterviewPatch.empty, cycleQuestionMsg, cycleAnswerMsg]

lemma num_responses_cyclePair (O : LLMOracles) (s : InterviewState) :
    num_responses [cycleQuestionMsg O s, cycleAnswerMsg O s] "expert" = 1 := by
  simp [num_responses, cycleQuestionMsg, cycleAnswerMsg, AIMessage]

lemma expertCount_cycle (O : LLMOracles) (s : InterviewState) :
    expertCount (interviewCycle O s) = expertCount s + 1 := by
  simp [expertCount, interviewCycle_messages, num_responses_append, num_responses_cyclePair]

lemma route_messages_cycle (O : LLMOracles) (s : InterviewState) :
    route_messages (interviewCycle O s) "expert" =
      if s.max_num_turns.getD 2 ≤ expertCount s + 1 then some "save_interview"
      else if strContains (cycleQuestionMsg O s).content
          "Thank you so much for your help" then some "save_interview"
      else some "ask_question" := by
  simp only [route_messages, interviewCycle_messages, interviewCycle_max,
    num_responses_append, num_responses_cyclePair, pyIndexNeg2_append_two, expertCount]

lemma runFrom_succ (O : LLMOracles) (fuel : Nat) (s : InterviewState) :
    runFrom O (fuel + 1) s =
      match route_messages (interviewCycle O s) "expert" with
      | none => none
      | some target =>
        if target = "save_interview" then some (interviewCycle O s, 1)
        else match runFrom O fuel (interviewCycle O s) with
          | none => none
          | some (t, n) => some (t, n + 1) := rfl

lemma runFrom_le (O : LLMOracles) :
    ∀ fuel s t n, runFrom O fuel s = some (t, n) →
      n ≤ max (s.max_num_turns.getD 2 - expertCount s) 1 := by
  intro fuel
  induction fuel with
  | zero => intro s t n h; simp [runFrom] at h
  | succ fuel ih =>
    intro s t n h
    rw [runFrom_succ, route_messages_cycle] at h
    by_cases h1 : s.max_num_turns.getD 2 ≤ expertCount s + 1
    · rw [if_pos h1] at h
      simp at h
      omega
    · by_cases h2 : strContains (cycleQuestionMsg O s).content
          "Thank you so much for your help" = true
      · rw [if_neg h1, if_pos h2] at h
        simp at h
        omega
      · rw [if_neg h1, if_neg h2] at h
        have hne : ¬ ("ask_question" = "save_interview") := by decide
        simp only [if_neg hne] at h
        cases hr : runFrom O fuel (interviewCycle O s) with
        | none => rw [hr] at h; exact absurd h (by simp)
        | some p =>
          obtain ⟨t', n'⟩ := p
          rw [hr] at h
          simp only [Option.some.injEq, Prod.mk.injEq] at h
          have := ih (interviewCycle O s) t' n' hr
          rw [interviewCycle_max, expertCount_cycle] at this
          omega

lemma runFrom_exact (O : LLMOracles)
    (hq : ∀ sys msgs, strContains (O.question sys msgs)
      "Thank you so much for your help" = false) :
    ∀ d s, s.max_num_turns.getD 2 - expertCount s = d →
      ∃ t, runFrom O (max d 1) s = some (t, max d 1) ∧
        expertCount t = expertCount s + max d 1 := by
  intro d
  induction d with
  | zero =>
    intro s h
    refine ⟨interviewCycle O s, ?_, by rw [expertCount_cycle]; omega⟩
    have h1 : s.max_num_turns.getD 2 ≤ expertCount s + 1 := by omega
    show runFrom O (0 + 1) s = some (interviewCycle O s, 1)
    rw [runFrom_succ, route_messages_cycle, if_pos h1]
    simp
  | succ d ih =>
    intro s h
    by_cases hd : d = 0
    · subst hd
      refine ⟨interviewCycle O s, ?_, by rw [expertCount_cycle]; omega⟩
      have h1 : s.max_num_turns.getD 2 ≤ expertCount s + 1 := by omega
      show runFrom O (0 + 1) s = some (interviewCycle O s, 1)
      rw [runFrom_succ, route_messages_cycle, if_pos h1]
      simp
    · have h1 : ¬ (s.max_num_turns.getD 2 ≤ expertCount s + 1) := by omega
      obtain ⟨t, hrun, hcnt⟩ := ih (interviewCycle O s)
        (by rw [interviewCycle_max, expertCount_cycle]; omega)
      have hmax : max d 1 = d := by omega
      have hfuel : max (d + 1) 1 = d + 1 := by omega
      rw [hmax] at hrun hcnt
      refine ⟨t, ?_, ?_⟩
      · rw [hfuel, runFrom_succ, route_messages_cycle, if_neg h1,
          if_neg (by simp [cycleQuestionMsg, AIMessage, hq])]
        simp [hrun]
      · rw [hfuel, hcnt, expertCount_cycle]
        omega

lemma interviewCycle_sections (O : LLMOracles) (s : InterviewState) :
    (interviewCycle O s).sections = s.sections := by
  simp [interviewCycle, applyPatch, generate_question, search_web, search_wikipedia,
    generate_answer, InterviewPatch.empty]

lemma runFrom_sections (O : LLMOracles) :
    ∀ fuel s t n, runFrom O fuel s = some (t, n) → t.sections = s.sections := by
  intro fuel
  induction fuel with
  | zero => intro s t n h; simp [runFrom] at h
  | succ fuel ih =>
    intro s t n h
    rw [runFrom_succ, route_messages_cycle] at h
    by_cases h1 : s.max_num_turns.getD 2 ≤ expertCount s + 1
    · rw [if_pos h1] at h
      simp at h
      rw [← h.1, interviewCycle_sections]
    · by_cases h2 : strContains (cycleQuestionMsg O s).content
          "Thank you so much for your help" = true
      · rw [if_neg h1, if_pos h2] at h
        simp at h
        rw [← h.1, interviewCycle_sections]
      · rw [if_neg h1, if_neg h2] at h
        have hne : ¬ ("ask_question" = "save_interview") := by decide
        simp only [if_neg hne] at h
        cases hr : runFrom O fuel (interviewCycle O s) with
        | none => rw [hr] at h; exact absurd h (by simp)
        | some p =>
          obtain ⟨t', n'⟩ := p
          rw [hr] at h
          simp at h
          rw [← h.1, ih _ _ _ hr, interviewCycle_sections]

lemma conduct_interview_sections_length (O : LLMOracles) (fuel : Nat)
    (s0 t : InterviewState) (h : conduct_interview O fuel s0 = some t) :
    t.sections.length = s0.sections.length + 1 := by
  unfold conduct_interview at h
  cases hr : runFrom O fuel s0 with
  | none => rw [hr] at h; exact absurd h (by simp)
  | some p =>
    obtain ⟨s, n⟩ := p
    rw [hr] at h
    simp only [Option.some.injEq] at h
    subst h
    have hs : s.sections = s0.sections := runFrom_sections O fuel s0 s n hr
    simp [applyPatch, save_interview, write_section, InterviewPatch.empty, hs]

lemma filterMap_id_length {α : Type} :
    ∀ l : List (Option α), l.all Option.isSome = true →
      (l.filterMap id).length = l.length := by
  intro l
  induction l with
  | nil => intro _; rfl
  | cons o l ih =>
    intro h
    simp only [List.all_cons, Bool.and_eq_true] at h
    cases o with
    | none => simp at h
    | some a => simp [List.filterMap_cons, ih h.2]

lemma flatten_length_of_singletons {α : Type} :
    ∀ l : List (List α), (∀ x ∈ l, x.length = 1) → l.flatten.length = l.length := by
  intro l
  induction l with
  | nil => intro _; rfl
  | cons x l ih =>
    intro h
    simp only [List.flatten_cons, List.length_append, List.length_cons]
    rw [h x (by simp), ih fun y hy => h y (by simp [hy])]
    omega

lemma runBranches_sections (O : LLMOracles) (fuel : Nat)
    (st st' : ResearchGraphState) (h : runBranches O fuel st = some st') :
    st'.sections.length = st.sections.length + st.analysts.length := by
  unfold runBranches at h
  by_cases hall : ((initiate_all_interviews st).map
      fun d => conduct_interview O fuel (seedState d)).all Option.isSome = true
  · rw [if_pos hall] at h
    simp only [Option.some.injEq] at h
    subst h
    simp only [List.length_append]
    have h1 : ∀ r ∈ (((initiate_all_interviews st).map
        fun d => conduct_interview O fuel (seedState d)).filterMap id),
        r.sections.length = 1 := by
      intro r hr
      obtain ⟨o, ho, hro⟩ := List.mem_filterMap.mp hr
      obtain ⟨d, _, hcd⟩ := List.mem_map.mp ho
      have : conduct_interview O fuel (seedState d) = some r := by
        rw [hcd]; exact hro
      have := conduct_interview_sections_length O fuel (seedState d) r this
      simpa [seedState] using this
    have h2 := filterMap_id_length _ hall
    have h3 : ((initiate_all_interviews st).map
        fun d => conduct_interview O fuel (seedState d)).length
        = st.analysts.length := by
      simp [initiate_all_interviews]
    have h4 := flatten_length_of_singletons
      ((((initiate_all_interviews st).map
        fun d => conduct_interview O fuel (seedState d)).filterMap id).map
        fun r => r.sections)
      (by
        intro x hx
        obtain ⟨r, hr, hrx⟩ := List.mem_map.mp hx
        rw [← hrx]
        exact h1 r hr)
    rw [h4]
    simp only [List.length_map]
    omega
  · rw [if_neg hall] at h
    exact absurd h (by simp)

/-- C1 (amended): for every `InterviewState`, `route_messages` returns
`save_interview` iff the expert-turn count reaches `maxTurns` or, the count
being below it, the second-to-last message exists and contains the
termination phrase; it returns `ask_question` iff the count is below
`maxTurns` and the second-to-last message exists without the phrase; and
when the count is below `maxTurns` but fewer than two messages exist the
`messages[-2]` access faults (no route is produced) instead of continuing. -/
theorem route_messages_characterization (s : InterviewState) (name : String) :
    (route_messages s name = some "save_interview" ↔
      s.max_num_turns.getD 2 ≤ num_responses s.messages name ∨
        (num_responses s.messages name < s.max_num_turns.getD 2 ∧
          ∃ m, pyIndexNeg2 s.messages = some m ∧
            strContains m.content "Thank you so much for your help" = true))
    ∧ (route_messages s name = some "ask_question" ↔
        num_responses s.messages name < s.max_num_turns.getD 2 ∧
          ∃ m, pyIndexNeg2 s.messages = some m ∧
            strContains m.content "Thank you so much for your help" = false)
    ∧ (route_messages s name = none ↔
        num_responses s.messages name < s.max_num_turns.getD 2 ∧
          s.messages.length < 2) := by
  have hlen : pyIndexNeg2 s.messages = none ↔ s.messages.length < 2 := by
    unfold pyIndexNeg2
    by_cases h : 2 ≤ s.messages.length
    · rw [if_pos h]
      have hi : s.messages.length - 2 < s.messages.length := by omega
      simp [List.getElem?_eq_getElem hi]
      omega
    · rw [if_neg h]
      simp
      omega
  by_cases h1 : s.max_num_turns.getD 2 ≤ num_responses s.messages name
  · have hr : route_messages s name = some "save_interview" := by
      unfold route_messages
      rw [if_pos h1]
    rw [hr]
    refine ⟨⟨fun _ => Or.inl h1, fun _ => rfl⟩, ?_, ?_⟩
    · constructor
      · intro h; exact absurd h (by decide)
      · intro h; exact absurd h.1 (by omega)
    · constructor
      · intro h; exact absurd h (by decide)
      · intro h; exact absurd h.1 (by omega)
  · cases hp : pyIndexNeg2 s.messages with
    | none =>
      have hr : route_messages s name = none := by
        unfold route_messages
        rw [if_neg h1, hp]
      rw [hr]
      refine ⟨?_, ?_, ?_⟩
      · constructor
        · intro h; exact absurd h (by decide)
        · rintro (h | ⟨-, m, hm, -⟩)
          · omega
          · exact absurd hm (by simp)
      · constructor
        · intro h; exact absurd h (by decide)
        · rintro ⟨-, m, hm, -⟩
          exact absurd hm (by simp)
      · exact ⟨fun _ => ⟨by omega, hlen.mp hp⟩, fun _ => rfl⟩
    | some m =>
      have hr : route_messages s name =
          if strContains m.content "Thank you so much for your help" = true
          then some "save_interview" else some "ask_question" := by
        unfold route_messages
        rw [if_neg h1, hp]
      by_cases h2 : strContains m.content "Thank you so much for your help" = true
      · rw [if_pos h2] at hr
        rw [hr]
        refine ⟨⟨fun _ => Or.inr ⟨by omega, m, rfl, h2⟩, fun _ => rfl⟩, ?_, ?_⟩
        · constructor
          · intro h; exact absurd h (by decide)
          · rintro ⟨-, m', hm', hphr⟩
            obtain rfl : m = m' := by simpa using hm'
            rw [h2] at hphr
            exact absurd hphr (by decide)
        · constructor
          · intro h; exact absurd h (by decide)
          · rintro ⟨-, hl⟩
            have hnone := hlen.mpr hl
            rw [hp] at hnone
            exact absurd hnone (by simp)
      · rw [if_neg h2] at hr
        rw [hr]
        have h2f : strContains m.content "Thank you so much for your help" = false := by
          simpa using h2
        refine ⟨?_, ⟨fun _ => ⟨by omega, m, rfl, h2f⟩, fun _ => rfl⟩, ?_⟩
        · constructor
          · intro h; exact absurd h (by decide)
          · rintro (h | ⟨-, m', hm', hphr⟩)
            · omega
            · obtain rfl : m = m' := by simpa using hm'
              rw [h2f] at hphr
              exact absurd hphr (by decide)
        · constructor
          · intro h; exact absurd h (by decide)
          · rintro ⟨-, hl⟩
            have hnone := hlen.mpr hl
            rw [hp] at hnone
            exact absurd hnone (by simp)

/-- C1 counterexample: on a one-message history (the opening question) with
the default `maxTurns = 2`, the expert count is below `maxTurns` yet
`route_messages` does not return `ask_question` — the `messages[-2]` access
faults (modelled as `none`). -/
theorem route_messages_single_message_faults :
    num_responses (demoSeed none).messages "expert" <
        (demoSeed none).max_num_turns.getD 2
      ∧ route_messages (demoSeed none) "expert" = none
      ∧ route_messages (demoSeed none) "expert" ≠ some "ask_question" := by
  decide

/-- C6 (amended): on every state with fewer than two messages whose expert
count is below `maxTurns`, `route_messages` faults on the `messages[-2]`
access (returns no route) instead of returning `ask_question`. -/
theorem route_short_history_faults (s : InterviewState) (name : String)
    (hlen : s.messages.length < 2)
    (hcount : num_responses s.messages name < s.max_num_turns.getD 2) :
    route_messages s name = none := by
  unfold route_messages
  rw [if_neg (by omega), show pyIndexNeg2 s.messages = none from by
    unfold pyIndexNeg2
    rw [if_neg (by omega)]]

/-- Witness for `route_short_history_faults` at a concrete one-message
state. -/
theorem route_short_history_faults_witness :
    (demoSeed (some 5)).messages.length < 2
      ∧ num_responses (demoSeed (some 5)).messages "expert" <
          (demoSeed (some 5)).max_num_turns.getD 2
      ∧ route_messages (demoSeed (some 5)) "expert" = none :=
  ⟨by decide, by decide,
    route_short_history_faults (demoSeed (some 5)) "expert" (by decide) (by decide)⟩

/-- C6 counterexample: on the empty history (expert count 0 below the
default `maxTurns = 2`), `route_messages` produces no route at all, so it
does not return `ask_question` as the claim states. -/
theorem route_empty_history_faults :
    num_responses emptySeed.messages "expert" < emptySeed.max_num_turns.getD 2
      ∧ route_messages emptySeed "expert" = none
      ∧ route_messages emptySeed "expert" ≠ some "ask_question" := by
  decide

/-- C9: `route_messages` is a deterministic function of the state snapshot:
its result depends only on the `messages` sequence and `max_num_turns` —
two states agreeing on those two fields route identically, whatever their
other fields. -/
theorem route_messages_deterministic (s t : InterviewState) (name : String)
    (h1 : s.messages = t.messages) (h2 : s.max_num_turns = t.max_num_turns) :
    route_messages s name = route_messages t name := by
  unfold route_messages
  rw [h1, h2]

/-- Witness for `route_messages_deterministic`: two concrete states that
differ in `context` and `interview` but agree on `messages` and
`max_num_turns` route identically. -/
theorem route_messages_deterministic_witness :
    detStateA ≠ detStateB
      ∧ route_messages detStateA "expert" = route_messages detStateB "expert" :=
  ⟨by decide, route_messages_deterministic detStateA detStateB "expert" rfl rfl⟩

/-- C5 (amended): with `maxTurns = 0` the router returns `save_interview`
on every message history (the count condition `0 ≤ count` already holds),
so the engine never loops; but because the graph consults the router only
after `answer_question`, one full cycle still runs and the completed
interview contains exactly one expert turn, not zero. -/
theorem maxturns_zero_terminates (O : LLMOracles) (s : InterviewState)
    (h0 : s.max_num_turns = some 0) :
    route_messages s "expert" = some "save_interview"
      ∧ (expertCount s = 0 →
          ∃ t, runFrom O 1 s = some (t, 1) ∧ expertCount t = 1) := by
  constructor
  · unfold route_messages
    rw [h0]
    simp
  · intro hc
    refine ⟨interviewCycle O s, ?_, by rw [expertCount_cycle, hc]⟩
    show runFrom O (0 + 1) s = some (interviewCycle O s, 1)
    rw [runFrom_succ, route_messages_cycle, if_pos (by rw [h0]; simp)]
    simp

/-- Witness for `maxturns_zero_terminates` at a concrete seeded state. -/
theorem maxturns_zero_terminates_witness :
    route_messages (demoSeed (some 0)) "expert" = some "save_interview"
      ∧ ∃ t, runFrom (demoOracles "An opening question?") 1 (demoSeed (some 0))
          = some (t, 1) ∧ expertCount t = 1 :=
  ⟨(maxturns_zero_terminates (demoOracles "An opening question?")
      (demoSeed (some 0)) rfl).1,
   (maxturns_zero_terminates (demoOracles "An opening question?")
      (demoSeed (some 0)) rfl).2 (by decide)⟩

/-- C5 counterexample: running the interview branch with `maxTurns = 0` and
no termination phrase produces an interview with exactly one expert turn —
not zero as the claim states — because `ask_question`, the searches and
`answer_question` all run before the router is first consulted. -/
theorem maxturns_zero_one_expert_turn :
    (runFrom (demoOracles "Tell me more.") 9 (demoSeed (some 0))).map
        (fun p => expertCount p.1) = some 1
      ∧ (1 : Nat) ≠ 0 := by
  constructor
  · rfl
  · decide

/-- C2 (amended): with `maxTurns = k` and a fresh history, the interview
loop performs at most `max k 1` ask/search/answer cycles — one cycle always
runs because the router is consulted only after `answer_question`, so
`k = 0` still yields one cycle — and, when the asker oracle never emits the
termination phrase, exactly `max k 1` cycles. -/
theorem interview_loop_bound (O : LLMOracles) (s : InterviewState) (k : Nat)
    (hk : s.max_num_turns = some k) (hc : expertCount s = 0) :
    (∀ fuel t n, runFrom O fuel s = some (t, n) → n ≤ max k 1)
      ∧ ((∀ sys msgs, strContains (O.question sys msgs)
            "Thank you so much for your help" = false) →
          ∃ t, runFrom O (max k 1) s = some (t, max k 1)) := by
  constructor
  · intro fuel t n h
    have hle := runFrom_le O fuel s t n h
    rw [hk, hc] at hle
    simpa using hle
  · intro hq
    have hd : s.max_num_turns.getD 2 - expertCount s = k := by
      rw [hk, hc]
      simp
    obtain ⟨t, hrun, -⟩ := runFrom_exact O hq k s hd
    exact ⟨t, hrun⟩

/-- Witness for `interview_loop_bound`: with `maxTurns = 2` and a
phrase-free asker oracle the concrete branch completes in exactly
`max 2 1 = 2` cycles. -/
theorem interview_loop_bound_witness :
    ∃ t, runFrom (demoOracles "What drives the outcome?") (max 2 1)
        (demoSeed (some 2)) = some (t, max 2 1) :=
  (interview_loop_bound (demoOracles "What drives the outcome?")
      (demoSeed (some 2)) 2 rfl (by decide)).2
    (fun _ _ => rfl)

/-- C2 counterexample: with `maxTurns = 0` and no termination phrase the
branch still runs one full cycle, so the loop does run more than `k = 0`
cycles, contradicting the claim that the loop never runs more than k cycles. -/
theorem maxturns_zero_exceeds_bound :
    (runFrom (demoOracles "An opening question.") 9 (demoSeed (some 0))).map
        (fun p => p.2) = some 1
      ∧ ¬ ((1 : Nat) ≤ 0) :=
  ⟨rfl, by decide⟩

/-- C7: `generate_answer` returns a patch that appends exactly one message,
tagged with the expert name `"expert"`, and whose every other key is
absent; applying the patch leaves `analyst`, `context`, `interview` and
`max_num_turns` unchanged and only appends to `messages`. -/
theorem generate_answer_frame (ansLLM : String → List Message → String)
    (s : InterviewState) :
    (generate_answer ansLLM s).messages = some [answerMsgOf ansLLM s]
      ∧ (answerMsgOf ansLLM s).name = some "expert"
      ∧ (answerMsgOf ansLLM s).isAI = true
      ∧ (generate_answer ansLLM s).analyst = none
      ∧ (generate_answer ansLLM s).context = none
      ∧ (generate_answer ansLLM s).interview = none
      ∧ (generate_answer ansLLM s).max_num_turns = none
      ∧ (generate_answer ansLLM s).sections = none
      ∧ (applyPatch s (generate_answer ansLLM s)).messages
          = s.messages ++ [answerMsgOf ansLLM s]
      ∧ (applyPatch s (generate_answer ansLLM s)).analyst = s.analyst
      ∧ (applyPatch s (generate_answer ansLLM s)).context = s.context
      ∧ (applyPatch s (generate_answer ansLLM s)).interview = s.interview
      ∧ (applyPatch s (generate_answer ansLLM s)).max_num_turns
          = s.max_num_turns := by
  refine ⟨rfl, rfl, rfl, rfl, rfl, rfl, rfl, rfl, ?_, ?_, ?_, ?_, ?_⟩ <;>
    simp [applyPatch, generate_answer, InterviewPatch.empty, answerMsgOf]

/-- C8: `write_recommendation` hands the synthesis oracle exactly the
prompt built from the market fields, the odds dict produced by
`format_market_odds` (each outcome zipped with its aligned price) and the
merged sections joined in their stable list order, and its patch carries
exactly one `Recommendation` and touches no other key. -/
theorem write_recommendation_spec (recLLM : String → String → Recommendation)
    (st : ResearchGraphState) :
    (write_recommendation recLLM st).recommendation =
        some (recLLM
          (recommendation_instructions st.market
            (oddsDictStr (format_market_odds st.market))
            (String.intercalate "\n\n" st.sections))
          "Create a recommendation based upon these memos.")
      ∧ (write_recommendation recLLM st).analysts = none
      ∧ (write_recommendation recLLM st).sections = none :=
  ⟨rfl, rfl, rfl⟩

/-- C10: `format_market_odds` returns the outcome-to-price association of
aligned indices (a dict, not the readable string its docstring claims);
on mismatched lengths it silently truncates to the shorter sequence —
its length is the minimum of the two — and raises no error. -/
theorem format_market_odds_spec (m : Market) :
    (format_market_odds m).length
        = min m.outcomes.length m.outcome_prices.length
      ∧ ∀ i : Nat, (format_market_odds m)[i]? =
          m.outcomes[i]?.bind fun o => (m.outcome_prices[i]?).map fun p => (o, p) := by
  refine ⟨?_, fun i => zip_getElem? m.outcomes m.outcome_prices i⟩
  simp [format_market_odds]

/-- C4: the code performs no outcome/price length validation — on a market
with two outcomes and one price, `format_market_odds` silently truncates to
one pair and `create_analysts` (the first node of the graph) runs normally,
returning its analyst patch; nothing rejects the input before the nodes
run. -/
theorem mismatched_market_runs_unchecked :
    mismatchedMarket.outcomes.length = 2
      ∧ mismatchedMarket.outcome_prices.length = 1
      ∧ format_market_odds mismatchedMarket = [("Yes", 62/100)]
      ∧ (create_analysts (demoOracles "q").analystGen
          { market := mismatchedMarket, max_analysts := 2, analysts := [] }).analysts
          = some [annAnalyst] :=
  ⟨rfl, rfl, rfl, rfl⟩

/-- C3: the fan-out router emits one `conduct_interview` directive per
analyst, in order, each seeded with that analyst and the single opening
message addressed to the market question; `write_section` contributes a
one-element `sections` patch; and a successful join of all branches grows
the parent `sections` by exactly the number of analysts. -/
theorem fan_out_cardinality (st : ResearchGraphState) :
    (initiate_all_interviews st).length = st.analysts.length
      ∧ (∀ i : Nat, (initiate_all_interviews st)[i]? =
          st.analysts[i]?.map fun analyst =>
            { node := "conduct_interview"
              analyst := analyst
              messages := [HumanMessage
                ("So you said you were analyzing the market question: "
                  ++ st.market.question ++ "?")] })
      ∧ (∀ (sectLLM : String → String → String) (s : InterviewState),
          ((write_section sectLLM s).sections.getD []).length = 1)
      ∧ (∀ (O : LLMOracles) (fuel : Nat) (st' : ResearchGraphState),
          runBranches O fuel st = some st' →
            st'.sections.length = st.sections.length + st.analysts.length) := by
  refine ⟨by simp [initiate_all_interviews], ?_, fun _ _ => rfl, ?_⟩
  · intro i
    simp [initiate_all_interviews]
  · intro O fuel st' h
    exact runBranches_sections O fuel st st' h

/-- Witness for `fan_out_cardinality`: a concrete one-analyst pipeline run
whose join adds exactly one section. -/
theorem fan_out_cardinality_witness :
    ∃ st', runBranches (demoOracles "A question.") 2 demoResearch = some st'
      ∧ st'.sections.length
          = demoResearch.sections.length + demoResearch.analysts.length := by
  have h : (runBranches (demoOracles "A question.") 2 demoResearch).isSome = true := by
    decide
  obtain ⟨st', hst'⟩ := Option.isSome_iff_exists.mp h
  exact ⟨st', hst', (fan_out_cardinality demoResearch).2.2.2 _ _ _ hst'⟩
